import Mathlib

/-!
Verification of the invocation state machine of the restate-sdk-go repository.

The embedding follows `internal/state/state.go` (machine, `replayOrNew`,
`invoke` with its panic recovery, `process`), `internal/state/call.go`
(`doCall`, `sendCall`) and the `rand` package (xoshiro-style source, `UUID`).

Go's panic-as-control-flow is modelled with `Except`: a panicking path
returns `.error` carrying the panic value and the machine state at the
moment of the panic. Frame writes are modelled as appending the frame to
an outbound list on the machine. Machine integers (`uint32` indexes,
`uint64` PRNG words) are modelled as `Nat` with explicit `% 2^64` where
overflow matters.
-/

namespace RestateSDK

/-- Byte strings are lists of naturals (each byte < 256 where it matters). -/
abbrev Bytes := List Nat

/-- protocol.CallEntryMessage: discriminators of a Call journal entry. -/
structure CallEntryMessage where
  serviceName : String
  handlerName : String
  parameter : Bytes
  key : String
deriving DecidableEq, Repr

/-- protocol.OneWayCallEntryMessage: discriminators of a OneWayCall journal entry. -/
structure OneWayCallEntryMessage where
  serviceName : String
  handlerName : String
  parameter : Bytes
  key : String
  invokeTime : Nat
deriving DecidableEq, Repr

/-- Result field of an OutputEntryMessage: success bytes or a failure. -/
inductive OutputResult
  | value (bytes : Bytes)
  | failure (code : Nat) (message : String)
deriving DecidableEq, Repr

/-- wire.Message restricted to journal entry messages the machine replays. -/
inductive Message
  | inputEntry (value : Bytes)
  | outputEntry (result : OutputResult)
  | getStateEntry (key : String)
  | setStateEntry (key : String) (value : Bytes)
  | clearStateEntry (key : String)
  | clearAllStateEntry
  | getStateKeysEntry
  | sleepEntry (wakeUpTime : Nat)
  | callEntry (m : CallEntryMessage)
  | oneWayCallEntry (m : OneWayCallEntryMessage)
  | awakeableEntry
  | completeAwakeableEntry (id : String)
  | sideEffectEntry (payload : Bytes)
deriving DecidableEq, Repr

/-- wire.MessageType: the type tags of protocol messages (used for the
RelatedEntryType field of ErrorMessage). -/
inductive MessageType
  | startMessage
  | completionMessage
  | suspensionMessage
  | errorMessage
  | entryAckMessage
  | endMessage
  | inputEntry
  | outputEntry
  | getStateEntry
  | setStateEntry
  | clearStateEntry
  | clearAllStateEntry
  | getStateKeysEntry
  | sleepEntry
  | callEntry
  | oneWayCallEntry
  | awakeableEntry
  | completeAwakeableEntry
  | sideEffectEntry
deriving DecidableEq, Repr

/-- wire.MessageType(msg): the type tag of a journal entry message. -/
def messageTypeOf : Message → MessageType
  | .inputEntry _ => .inputEntry
  | .outputEntry _ => .outputEntry
  | .getStateEntry _ => .getStateEntry
  | .setStateEntry _ _ => .setStateEntry
  | .clearStateEntry _ => .clearStateEntry
  | .clearAllStateEntry => .clearAllStateEntry
  | .getStateKeysEntry => .getStateKeysEntry
  | .sleepEntry _ => .sleepEntry
  | .callEntry _ => .callEntry
  | .oneWayCallEntry _ => .oneWayCallEntry
  | .awakeableEntry => .awakeableEntry
  | .completeAwakeableEntry _ => .completeAwakeableEntry
  | .sideEffectEntry _ => .sideEffectEntry

/-- Cause recorded on a wire.SuspensionPanic: clean end of stream (io.EOF)
or a transport error with its code and text. -/
inductive SuspensionCause
  | eof
  | transport (code : Nat) (message : String)
deriving DecidableEq, Repr

/-- The panic values thrown by the state machine and recovered in `invoke`:
entryMismatch, writeError, sideEffectFailure, wire.SuspensionPanic, and any
other panic (carried as a description string). -/
inductive PanicValue
  | entryMismatch (expectedEntry : Message) (actualEntry : Message) (entryIndex : Nat)
  | writeFailure (entry : Message) (entryIndex : Nat) (errText : String)
  | sideEffectFailure (code : Nat) (errText : String) (entryIndex : Nat)
  | suspensionPanic (entryIndexes : List Nat) (cause : SuspensionCause)
  | otherPanic (description : String)
deriving DecidableEq, Repr

/-- protocol.ErrorMessage: the fields the machine populates. -/
structure ErrorMessagePayload where
  code : Nat
  message : String
  relatedEntryIndex : Option Nat
  relatedEntryType : Option MessageType
deriving DecidableEq, Repr

/-- Frames the machine writes to the runtime. -/
inductive OutMessage
  | outputEntry (result : OutputResult)
  | endMessage
  | errorMessage (e : ErrorMessagePayload)
  | suspensionMessage (entryIndexes : List Nat)
  | callEntry (m : CallEntryMessage)
  | oneWayCallEntry (m : OneWayCallEntryMessage)
deriving DecidableEq, Repr

/-- errors.ErrJournalMismatch. -/
def errJournalMismatch : Nat := 570

/-- errors.ErrProtocolViolation. -/
def errProtocolViolation : Nat := 571

/-- state.Machine restricted to the journal fields `replayOrNew` and the
call operations touch: the replay array (the N−1 entries after Input), the
1-based cursor, the sticky failure field, and the outbound frames written
so far (modelling wire.Protocol writes). -/
structure Machine where
  entries : List Message
  entryIndex : Nat
  failure : Option PanicValue
  written : List OutMessage
deriving DecidableEq, Repr

/-- Machine.currentEntry: the entry at the (already incremented) 1-based
cursor, when the cursor is within the replay array. -/
def currentEntry (m : Machine) : Option Message :=
  if m.entryIndex ≤ m.entries.length then m.entries.get? (m.entryIndex - 1) else none

/-- replayOrNew from state.go. Type parameter `M` (the expected entry type)
is represented by `extract` (Go's type assertion `entry.(M)`) together with
a representative `expectedEntry` used in the mismatch panic (Go's
`var expectedEntry M`). `replay` and `newFn` may themselves panic, which Go
expresses by `panic` inside the callbacks; the cursor has been incremented
when they run, so the machine returned with an `.error` carries the
incremented cursor, matching the Go machine state at the panic. -/
def replayOrNew {M O : Type} (m : Machine)
    (extract : Message → Option M)
    (expectedEntry : Message)
    (replay : Nat → M → Except PanicValue O)
    (newFn : Machine → Except PanicValue (O × Machine)) :
    Except (PanicValue × Machine) ((O × Nat) × Machine) :=
  match m.failure with
  | some f => .error (f, m)
  | none =>
    let m1 : Machine := { m with entryIndex := m.entryIndex + 1 }
    match currentEntry m1 with
    | some entry =>
      match extract entry with
      | none => .error (.entryMismatch expectedEntry entry m1.entryIndex, m1)
      | some typed =>
        match replay m1.entryIndex typed with
        | .error p => .error (p, m1)
        | .ok o => .ok ((o, m1.entryIndex), m1)
    | none =>
      match newFn m1 with
      | .error p => .error (p, m1)
      | .ok (o, m2) => .ok ((o, m2.entryIndex), m2)

/-- Machine.Write, modelled from the spec (§4.A): the wire.Protocol write
serializes the frame onto the stream; here it appends the frame to the
outbound list. Transport failure (the writeError panic) is not exercised by
the claims and is not modelled. -/
def Machine.Write (m : Machine) (msg : OutMessage) : Machine :=
  { m with written := m.written ++ [msg] }

/-- Machine._doCall from call.go: build the CallEntryMessage, write it,
return it. -/
def _doCall (m : Machine) (service key method : String) (params : Bytes) :
    CallEntryMessage × Machine :=
  let msg : CallEntryMessage :=
    { serviceName := service, handlerName := method, parameter := params, key := key }
  (msg, m.Write (.callEntry msg))

/-- Machine.doCall from call.go: replayOrNew on a CallEntryMessage; on
replay the full discriminators (service, key, method, parameter bytes) must
match or an entryMismatch is panicked with the populated expected entry. -/
def doCall (m : Machine) (service key method : String) (params : Bytes) :
    Except (PanicValue × Machine) ((CallEntryMessage × Nat) × Machine) :=
  replayOrNew m
    (fun msg => match msg with | .callEntry c => some c | _ => none)
    (.callEntry { serviceName := "", handlerName := "", parameter := [], key := "" })
    (fun i entry =>
      if entry.serviceName ≠ service ∨ entry.key ≠ key ∨
          entry.handlerName ≠ method ∨ entry.parameter ≠ params then
        .error (.entryMismatch
          (.callEntry { serviceName := service, handlerName := method,
                        parameter := params, key := key })
          (.callEntry entry) i)
      else
        .ok entry)
    (fun m1 => .ok (_doCall m1 service key method params))

/-- Machine._sendCall from call.go: invokeTime is 0 for no delay, else
now + delay in epoch millis (`now` passed in, standing for time.Now()). -/
def _sendCall (m : Machine) (service key method : String) (params : Bytes)
    (delay now : Nat) : Machine :=
  let invokeTime := if delay ≠ 0 then now + delay else 0
  m.Write (.oneWayCallEntry
    { serviceName := service, handlerName := method, parameter := params,
      key := key, invokeTime := invokeTime })

/-- Machine.sendCall from call.go: replayOrNew on a OneWayCallEntryMessage
with the same discriminator check as doCall; returns restate.Void
(modelled as Unit). -/
def sendCall (m : Machine) (service key method : String) (params : Bytes)
    (delay now : Nat) :
    Except (PanicValue × Machine) ((Unit × Nat) × Machine) :=
  replayOrNew m
    (fun msg => match msg with | .oneWayCallEntry c => some c | _ => none)
    (.oneWayCallEntry { serviceName := "", handlerName := "", parameter := [],
                        key := "", invokeTime := 0 })
    (fun i entry =>
      if entry.serviceName ≠ service ∨ entry.key ≠ key ∨
          entry.handlerName ≠ method ∨ entry.parameter ≠ params then
        .error (.entryMismatch
          (.oneWayCallEntry { serviceName := service, handlerName := method,
                              parameter := params, key := key, invokeTime := 0 })
          (.oneWayCallEntry entry) i)
      else
        .ok ())
    (fun m1 => .ok ((), _sendCall m1 service key method params delay now))

/-- Outcome of handler.Call as seen by `invoke`: a normal return (bytes or
an error marked terminal or not), or a panic propagating out of the SDK
operations used by the handler. -/
inductive HandlerResult
  | success (bytes : Bytes)
  | failure (terminal : Bool) (code : Nat) (message : String)
  | panicked (p : PanicValue)
deriving DecidableEq, Repr

/-- Text of the journal-mismatch ErrorMessage (state.go builds it with the
entry position and the JSON of both entries; the exact rendering of the
entries is immaterial to the claims, the position is kept). -/
def mismatchText (i : Nat) : String :=
  s!"Journal mismatch: the journal entry at position {i} did not correspond to the user code"

/-- The deferred recover block of Machine.invoke in state.go: maps each
recovered panic value to the frames written. `outerCancelled` stands for
m.ctx.Err() != nil (the http2 stream was cancelled), consulted only in the
SuspensionPanic case. -/
def recoverFrames (outerCancelled : Bool) (p : PanicValue) : List OutMessage :=
  match p with
  | .entryMismatch _ actual i =>
    [.errorMessage { code := errJournalMismatch, message := mismatchText i,
                     relatedEntryIndex := some i,
                     relatedEntryType := some (messageTypeOf actual) }]
  | .writeFailure entry i errText =>
    [.errorMessage { code := errProtocolViolation, message := errText,
                     relatedEntryIndex := some i,
                     relatedEntryType := some (messageTypeOf entry) }]
  | .sideEffectFailure code errText i =>
    [.errorMessage { code := code, message := errText,
                     relatedEntryIndex := some i,
                     relatedEntryType := some MessageType.awakeableEntry }]
  | .suspensionPanic idxs cause =>
    if outerCancelled then
      []
    else
      match cause with
      | .eof => [.suspensionMessage idxs]
      | .transport code errText =>
        [.errorMessage { code := code,
                         message := s!"problem reading completions: {errText}",
                         relatedEntryIndex := none, relatedEntryType := none }]
  | .otherPanic description =>
    [.errorMessage { code := 500, message := description,
                     relatedEntryIndex := none, relatedEntryType := none }]

/-- Machine.invoke from state.go, as the frames it writes. If a prior
Output was seen during replay it writes only End and never calls the
handler (the handler is a thunk, forced only on the other path). Otherwise
it runs the handler: success bytes give Output{value}+End, a terminal error
gives Output{failure}+End, a non-terminal error gives a single
ErrorMessage, and a panic is handled by the recover block. -/
def invoke (outputSeen : Bool) (outerCancelled : Bool)
    (handler : Unit → HandlerResult) : List OutMessage :=
  if outputSeen then
    [.endMessage]
  else
    match handler () with
    | .success bytes => [.outputEntry (.value bytes), .endMessage]
    | .failure true code msg => [.outputEntry (.failure code msg), .endMessage]
    | .failure false code msg =>
      [.errorMessage { code := code, message := msg,
                       relatedEntryIndex := none, relatedEntryType := none }]
    | .panicked p => recoverFrames outerCancelled p

/-- The outputSeen flag computed by Machine.process while reading the N−1
replay entries: true iff some replayed entry is an OutputEntryMessage. -/
def outputSeen (entries : List Message) : Bool :=
  entries.any fun e => match e with | .outputEntry _ => true | _ => false

/-- rotl from the rand package: 64-bit left rotation (the left shift wraps
modulo 2^64; the right shift needs no mask for x < 2^64). -/
def rotl (x k : Nat) : Nat :=
  ((x <<< k) % 2 ^ 64) ||| (x >>> (64 - k))

/-- rand.Source: four 64-bit state words. -/
structure Source where
  s0 : Nat
  s1 : Nat
  s2 : Nat
  s3 : Nat
deriving DecidableEq, Repr

/-- Source.Uint64 from the rand package: the result is computed on the
pre-state, then the state is permuted. All arithmetic is modulo 2^64
(xors of 64-bit words need no reduction). -/
def Source.Uint64 (s : Source) : Nat × Source :=
  let result := (rotl ((s.s0 + s.s3) % 2 ^ 64) 23 + s.s0) % 2 ^ 64
  let t := (s.s1 <<< 17) % 2 ^ 64
  let a2 := s.s2 ^^^ s.s0
  let a3 := s.s3 ^^^ s.s1
  let a1 := s.s1 ^^^ a2
  let a0 := s.s0 ^^^ a3
  let b2 := a2 ^^^ t
  let b3 := rotl a3 45
  (result, { s0 := a0, s1 := a1, s2 := b2, s3 := b3 })

/-- binary.LittleEndian.Uint64 on the first 8 bytes of a byte string. -/
def leUint64 (b : Bytes) : Nat :=
  (b.take 8).foldr (fun byte acc => acc * 256 + byte) 0

/-- newSource from the rand package, with the SHA-256 digest passed in:
crypto/sha256 is external to the repository, so `sum` stands for the
32-byte digest of the invocation id; the four state words are its
little-endian 64-bit words. -/
def newSource (sum : Bytes) : Source :=
  { s0 := leUint64 (sum.take 8)
    s1 := leUint64 ((sum.drop 8).take 8)
    s2 := leUint64 ((sum.drop 16).take 8)
    s3 := leUint64 ((sum.drop 24).take 8) }

/-- Seeding as rand.New does it: SHA-256 of the invocation id (the hash
function is a parameter, external to the repository), then newSource. -/
def seedFromId (sha256 : Bytes → Bytes) (invocationID : Bytes) : Source :=
  newSource (sha256 invocationID)

/-- The stream of the first n Uint64 values from a source. -/
def uint64Seq (s : Source) : Nat → List Nat
  | 0 => []
  | n + 1 =>
    let p := s.Uint64
    p.1 :: uint64Seq p.2 n

/-- The 8 little-endian bytes of a 64-bit word, as
binary.LittleEndian.PutUint64 lays them out. -/
def leBytes8 (x : Nat) : Bytes :=
  (List.range 8).map fun i => (x >>> (8 * i)) &&& 255

/-- Rand.UUID from the rand package: 16 bytes drawn as two little-endian
Uint64 values, then byte 6 forced to version 4 and byte 8 to the RFC 4122
variant. Returns the bytes and the advanced source. -/
def Rand.UUID (s : Source) : Bytes × Source :=
  let p1 := s.Uint64
  let p2 := p1.2.Uint64
  let raw := leBytes8 p1.1 ++ leBytes8 p2.1
  let withVersion := raw.set 6 (((raw.getD 6 0) &&& 15) ||| 64)
  let withVariant := withVersion.set 8 (((withVersion.getD 8 0) &&& 63) ||| 128)
  (withVariant, p2.2)

/-- Stated from the spec (§4.G), for comparison against Source.Uint64: one
xoshiro step written exactly as the spec's assignment sequence reads. -/
def specUint64Step (s : Source) : Nat × Source :=
  let result := (rotl ((s.s0 + s.s3) % 2 ^ 64) 23 + s.s0) % 2 ^ 64
  let t := (s.s1 <<< 17) % 2 ^ 64
  let state2 := s.s2 ^^^ s.s0
  let state3 := s.s3 ^^^ s.s1
  let state1 := s.s1 ^^^ state2
  let state0 := s.s0 ^^^ state3
  let state2f := state2 ^^^ t
  let state3f := rotl state3 45
  (result, { s0 := state0, s1 := state1, s2 := state2f, s3 := state3f })

/-- Helper: replayOrNew when the incremented cursor lies inside the replay
array and the entry there is known. -/
theorem replayOrNew_at_entry {M O : Type} (m : Machine)
    (extract : Message → Option M) (expectedEntry : Message)
    (replay : Nat → M → Except PanicValue O)
    (newFn : Machine → Except PanicValue (O × Machine))
    (entry : Message)
    (hf : m.failure = none)
    (hl : m.entryIndex + 1 ≤ m.entries.length)
    (hget : m.entries.get? m.entryIndex = some entry) :
    replayOrNew m extract expectedEntry replay newFn =
      match extract entry with
      | none =>
        .error (.entryMismatch expectedEntry entry (m.entryIndex + 1),
                { m with entryIndex := m.entryIndex + 1 })
      | some typed =>
        match replay (m.entryIndex + 1) typed with
        | .error p => .error (p, { m with entryIndex := m.entryIndex + 1 })
        | .ok o => .ok ((o, m.entryIndex + 1), { m with entryIndex := m.entryIndex + 1 }) := by
  rcases m with ⟨entries, idx, fl, wr⟩
  simp only at hf hl hget ⊢
  subst hf
  have hcur :
      currentEntry { entries := entries, entryIndex := idx + 1, failure := none, written := wr } =
        some entry := by
    simp only [currentEntry, Nat.add_sub_cancel]
    rw [if_pos hl]
    exact hget
  simp only [replayOrNew, hcur]

/-- Helper: replayOrNew when the incremented cursor lies past the replay
array (the new-entry path). -/
theorem replayOrNew_past_entries {M O : Type} (m : Machine)
    (extract : Message → Option M) (expectedEntry : Message)
    (replay : Nat → M → Except PanicValue O)
    (newFn : Machine → Except PanicValue (O × Machine))
    (hf : m.failure = none)
    (hl : m.entries.length < m.entryIndex + 1) :
    replayOrNew m extract expectedEntry replay newFn =
      match newFn { m with entryIndex := m.entryIndex + 1 } with
      | .error p => .error (p, { m with entryIndex := m.entryIndex + 1 })
      | .ok (o, m2) => .ok ((o, m2.entryIndex), m2) := by
  rcases m with ⟨entries, idx, fl, wr⟩
  simp only at hf hl ⊢
  subst hf
  have hcur :
      currentEntry { entries := entries, entryIndex := idx + 1, failure := none, written := wr } =
        none := by
    simp only [currentEntry]
    rw [if_neg (by omega)]
  simp only [replayOrNew, hcur]

/-- C1: for every invocation of replayOrNew with no sticky failure, the
cursor is incremented to i = entryIndex + 1; if i is within the replay
range the entry at position i is fetched and a tag mismatch raises
entryMismatch(expected, entry, i), while a matching tag returns
(replay entry, i); past the replay range newFn runs and its result is
returned with i. -/
theorem c1_replayOrNew_contract {M O : Type} (m : Machine)
    (extract : Message → Option M) (expectedEntry : Message)
    (replay : Nat → M → Except PanicValue O)
    (newFn : Machine → Except PanicValue (O × Machine))
    (hf : m.failure = none) :
    (∀ entry, m.entryIndex + 1 ≤ m.entries.length →
        m.entries.get? m.entryIndex = some entry →
        (extract entry = none →
          replayOrNew m extract expectedEntry replay newFn =
            .error (.entryMismatch expectedEntry entry (m.entryIndex + 1),
                    { m with entryIndex := m.entryIndex + 1 })) ∧
        (∀ typed o, extract entry = some typed →
          replay (m.entryIndex + 1) typed = .ok o →
          replayOrNew m extract expectedEntry replay newFn =
            .ok ((o, m.entryIndex + 1), { m with entryIndex := m.entryIndex + 1 }))) ∧
    (m.entries.length < m.entryIndex + 1 →
      ∀ o m2, newFn { m with entryIndex := m.entryIndex + 1 } = .ok (o, m2) →
        m2.entryIndex = m.entryIndex + 1 →
        replayOrNew m extract expectedEntry replay newFn =
          .ok ((o, m.entryIndex + 1), m2)) := by
  constructor
  · intro entry hl hget
    have hrw := replayOrNew_at_entry m extract expectedEntry replay newFn entry hf hl hget
    constructor
    · intro hex
      simp only [hrw, hex]
    · intro typed o hex hrep
      simp only [hrw, hex, hrep]
  · intro hl o m2 hnew hidx
    have hrw := replayOrNew_past_entries m extract expectedEntry replay newFn hf hl
    simp only [hrw, hnew, hidx]

/-- Witness for C1: a machine whose single replay entry is a Call entry
replays it at index 1. -/
def c1ExampleMachine : Machine :=
  { entries := [.callEntry { serviceName := "svc", handlerName := "m",
                             parameter := [], key := "" }],
    entryIndex := 0, failure := none, written := [] }

/-- Witness for C1 at a concrete machine. -/
theorem c1_replayOrNew_contract_witness :
    replayOrNew c1ExampleMachine
      (fun msg => match msg with | .callEntry c => some c | _ => none)
      (.callEntry { serviceName := "", handlerName := "", parameter := [], key := "" })
      (fun _ e => .ok e)
      (fun m1 => .ok (_doCall m1 "svc" "" "m" [])) =
      .ok (({ serviceName := "svc", handlerName := "m", parameter := [], key := "" }, 1),
           { c1ExampleMachine with entryIndex := 1 }) :=
  ((c1_replayOrNew_contract c1ExampleMachine
      (fun msg => match msg with | .callEntry c => some c | _ => none)
      (.callEntry { serviceName := "", handlerName := "", parameter := [], key := "" })
      (fun _ e => .ok e)
      (fun m1 => .ok (_doCall m1 "svc" "" "m" [])) rfl).1
    (.callEntry { serviceName := "svc", handlerName := "m", parameter := [], key := "" })
    (by decide) rfl).2
    { serviceName := "svc", handlerName := "m", parameter := [], key := "" }
    { serviceName := "svc", handlerName := "m", parameter := [], key := "" }
    rfl rfl

/-- C3: once a failure is stored in the sticky failure field, replayOrNew
re-raises exactly that failure with the machine unchanged — the cursor is
not incremented and the journal is untouched. -/
theorem c3_sticky_failure_latches {M O : Type} (m : Machine) (f : PanicValue)
    (extract : Message → Option M) (expectedEntry : Message)
    (replay : Nat → M → Except PanicValue O)
    (newFn : Machine → Except PanicValue (O × Machine))
    (h : m.failure = some f) :
    replayOrNew m extract expectedEntry replay newFn = .error (f, m) := by
  simp only [replayOrNew, h]

/-- Witness for C3: a poisoned machine. -/
def c3PoisonedMachine : Machine :=
  { entries := [], entryIndex := 5, failure := some (.otherPanic "boom"), written := [] }

/-- Witness for C3 at a concrete poisoned machine. -/
theorem c3_sticky_failure_latches_witness :
    replayOrNew c3PoisonedMachine
      (fun msg => match msg with | .callEntry c => some c | _ => none)
      (.callEntry { serviceName := "", handlerName := "", parameter := [], key := "" })
      (fun _ e => .ok e)
      (fun m1 => .ok (_doCall m1 "s" "" "m" [])) =
      .error (.otherPanic "boom", c3PoisonedMachine) :=
  c3_sticky_failure_latches c3PoisonedMachine (.otherPanic "boom")
    (fun msg => match msg with | .callEntry c => some c | _ => none)
    (.callEntry { serviceName := "", handlerName := "", parameter := [], key := "" })
    (fun _ e => .ok e)
    (fun m1 => .ok (_doCall m1 "s" "" "m" [])) rfl

/-- C2: on replay of a Call (doCall) or OneWayCall (sendCall) whose entry
tag matches, differing service, key, method or parameter bytes raise
entryMismatch; when all discriminators match, the operation returns with
the machine unchanged except the cursor — in particular no new frame is
written. -/
theorem c2_call_replay_discriminators
    (m1 m2 : Machine) (service key method : String) (params : Bytes)
    (e : CallEntryMessage) (w : OneWayCallEntryMessage) (delay now : Nat)
    (hf1 : m1.failure = none)
    (hl1 : m1.entryIndex + 1 ≤ m1.entries.length)
    (he1 : m1.entries.get? m1.entryIndex = some (.callEntry e))
    (hf2 : m2.failure = none)
    (hl2 : m2.entryIndex + 1 ≤ m2.entries.length)
    (he2 : m2.entries.get? m2.entryIndex = some (.oneWayCallEntry w)) :
    ((e.serviceName ≠ service ∨ e.key ≠ key ∨ e.handlerName ≠ method ∨ e.parameter ≠ params) →
      doCall m1 service key method params =
        .error (.entryMismatch
          (.callEntry { serviceName := service, handlerName := method,
                        parameter := params, key := key })
          (.callEntry e) (m1.entryIndex + 1),
          { m1 with entryIndex := m1.entryIndex + 1 })) ∧
    (e.serviceName = service → e.key = key → e.handlerName = method → e.parameter = params →
      doCall m1 service key method params =
        .ok ((e, m1.entryIndex + 1), { m1 with entryIndex := m1.entryIndex + 1 })) ∧
    ((w.serviceName ≠ service ∨ w.key ≠ key ∨ w.handlerName ≠ method ∨ w.parameter ≠ params) →
      sendCall m2 service key method params delay now =
        .error (.entryMismatch
          (.oneWayCallEntry { serviceName := service, handlerName := method,
                              parameter := params, key := key, invokeTime := 0 })
          (.oneWayCallEntry w) (m2.entryIndex + 1),
          { m2 with entryIndex := m2.entryIndex + 1 })) ∧
    (w.serviceName = service → w.key = key → w.handlerName = method → w.parameter = params →
      sendCall m2 service key method params delay now =
        .ok (((), m2.entryIndex + 1), { m2 with entryIndex := m2.entryIndex + 1 })) := by
  have hrw1 := replayOrNew_at_entry m1
    (fun msg => match msg with | .callEntry c => some c | _ => none)
    (.callEntry { serviceName := "", handlerName := "", parameter := [], key := "" })
    (fun i entry =>
      if entry.serviceName ≠ service ∨ entry.key ≠ key ∨
          entry.handlerName ≠ method ∨ entry.parameter ≠ params then
        .error (.entryMismatch
          (.callEntry { serviceName := service, handlerName := method,
                        parameter := params, key := key })
          (.callEntry entry) i)
      else
        .ok entry)
    (fun m => .ok (_doCall m service key method params))
    (.callEntry e) hf1 hl1 he1
  have hrw2 := replayOrNew_at_entry m2
    (fun msg => match msg with | .oneWayCallEntry c => some c | _ => none)
    (.oneWayCallEntry { serviceName := "", handlerName := "", parameter := [],
                        key := "", invokeTime := 0 })
    (fun i entry =>
      if entry.serviceName ≠ service ∨ entry.key ≠ key ∨
          entry.handlerName ≠ method ∨ entry.parameter ≠ params then
        .error (.entryMismatch
          (.oneWayCallEntry { serviceName := service, handlerName := method,
                              parameter := params, key := key, invokeTime := 0 })
          (.oneWayCallEntry entry) i)
      else
        .ok ())
    (fun m => .ok ((), _sendCall m service key method params delay now))
    (.oneWayCallEntry w) hf2 hl2 he2
  refine ⟨?_, ?_, ?_, ?_⟩
  · intro hne
    rw [doCall, hrw1]
    simp only []
    rw [if_pos hne]
  · intro h1 h2 h3 h4
    rw [doCall, hrw1]
    simp only []
    rw [if_neg (by simp [h1, h2, h3, h4])]
  · intro hne
    rw [sendCall, hrw2]
    simp only []
    rw [if_pos hne]
  · intro h1 h2 h3 h4
    rw [sendCall, hrw2]
    simp only []
    rw [if_neg (by simp [h1, h2, h3, h4])]

/-- Witness machine for C2: one Call entry and one OneWayCall entry at the
head of two machines. -/
def c2CallMachine : Machine :=
  { entries := [.callEntry { serviceName := "svc", handlerName := "m",
                             parameter := [1], key := "k" }],
    entryIndex := 0, failure := none, written := [] }

/-- Second witness machine for C2. -/
def c2SendMachine : Machine :=
  { entries := [.oneWayCallEntry { serviceName := "svc", handlerName := "m",
                                   parameter := [1], key := "k", invokeTime := 7 }],
    entryIndex := 0, failure := none, written := [] }

/-- Witness for C2 at concrete machines: a changed method name mismatches,
matching discriminators replay. -/
theorem c2_call_replay_discriminators_witness :
    (doCall c2CallMachine "svc" "k" "other" [1] =
      .error (.entryMismatch
        (.callEntry { serviceName := "svc", handlerName := "other",
                      parameter := [1], key := "k" })
        (.callEntry { serviceName := "svc", handlerName := "m",
                      parameter := [1], key := "k" }) 1,
        { c2CallMachine with entryIndex := 1 })) ∧
    (sendCall c2SendMachine "svc" "k" "m" [1] 0 0 =
      .ok (((), 1), { c2SendMachine with entryIndex := 1 })) :=
  ⟨(c2_call_replay_discriminators c2CallMachine c2SendMachine "svc" "k" "other" [1]
      { serviceName := "svc", handlerName := "m", parameter := [1], key := "k" }
      { serviceName := "svc", handlerName := "m", parameter := [1], key := "k", invokeTime := 7 }
      0 0 rfl (by decide) rfl rfl (by decide) rfl).1
      (by right; right; left; decide),
   (c2_call_replay_discriminators c2CallMachine c2SendMachine "svc" "k" "m" [1]
      { serviceName := "svc", handlerName := "m", parameter := [1], key := "k" }
      { serviceName := "svc", handlerName := "m", parameter := [1], key := "k", invokeTime := 7 }
      0 0 rfl (by decide) rfl rfl (by decide) rfl).2.2.2 rfl rfl rfl rfl⟩

/-- C4: when the replayed journal contains an Output entry, invoke writes
exactly one EndMessage and nothing else, for every handler — in particular
the handler thunk is never forced, so the user handler is not invoked. -/
theorem c4_output_seen_only_end (entries : List Message) (r : OutputResult)
    (outerCancelled : Bool) (handler : Unit → HandlerResult)
    (h : Message.outputEntry r ∈ entries) :
    invoke (outputSeen entries) outerCancelled handler = [OutMessage.endMessage] ∧
    (invoke (outputSeen entries) outerCancelled handler).count OutMessage.endMessage = 1 := by
  have hseen : outputSeen entries = true := by
    simp only [outputSeen, List.any_eq_true]
    exact ⟨Message.outputEntry r, h, rfl⟩
  rw [invoke, if_pos hseen]
  exact ⟨rfl, rfl⟩

/-- Witness for C4 at a concrete replayed journal holding an Output entry. -/
theorem c4_output_seen_only_end_witness :
    invoke (outputSeen [Message.outputEntry (.value [1])]) false
      (fun _ => .success [2]) = [OutMessage.endMessage] :=
  (c4_output_seen_only_end [Message.outputEntry (.value [1])] (.value [1]) false
    (fun _ => .success [2]) (List.mem_singleton.mpr rfl)).1

/-- C5: when the handler returns, success bytes give Output{value}+End, a
terminal error gives Output{failure{code,message}}+End, and a non-terminal
error gives a single ErrorMessage{code,message} with no End. -/
theorem c5_handler_return_frames (byteString : Bytes) (code : Nat) (msg : String)
    (outerCancelled : Bool) :
    invoke false outerCancelled (fun _ => .success byteString) =
      [.outputEntry (.value byteString), .endMessage] ∧
    invoke false outerCancelled (fun _ => .failure true code msg) =
      [.outputEntry (.failure code msg), .endMessage] ∧
    invoke false outerCancelled (fun _ => .failure false code msg) =
      [.errorMessage { code := code, message := msg,
                       relatedEntryIndex := none, relatedEntryType := none }] :=
  ⟨rfl, rfl, rfl⟩

/-- C6: a Suspension with root cause EOF and the outer context alive
yields SuspensionMessage{entryIndexes}; a transport root cause yields an
ErrorMessage with the transport cause; a cancelled outer context yields no
frame at all. -/
theorem c6_suspension_frames (idxs : List Nat) (code : Nat) (msg : String)
    (cause : SuspensionCause) :
    invoke false false (fun _ => .panicked (.suspensionPanic idxs .eof)) =
      [.suspensionMessage idxs] ∧
    invoke false false (fun _ => .panicked (.suspensionPanic idxs (.transport code msg))) =
      [.errorMessage { code := code,
                       message := s!"problem reading completions: {msg}",
                       relatedEntryIndex := none, relatedEntryType := none }] ∧
    invoke false true (fun _ => .panicked (.suspensionPanic idxs cause)) = [] := by
  refine ⟨rfl, rfl, ?_⟩
  rw [invoke]
  simp [recoverFrames]

/-- C10: recovery of a sideEffectFailure writes an ErrorMessage carrying
the failing entry index and the terminal code, but its RelatedEntryType is
the Awakeable entry type, which differs from the SideEffect entry type. -/
theorem c10_side_effect_failure_related_type (code : Nat) (msg : String) (i : Nat)
    (outerCancelled : Bool) :
    invoke false outerCancelled (fun _ => .panicked (.sideEffectFailure code msg i)) =
      [.errorMessage { code := code, message := msg,
                       relatedEntryIndex := some i,
                       relatedEntryType := some MessageType.awakeableEntry }] ∧
    MessageType.awakeableEntry ≠ MessageType.sideEffectEntry :=
  ⟨rfl, by decide⟩

/-- The S3 machine: Start{N=1} leaves no replay entries and the cursor at 0. -/
def s3Machine : Machine :=
  { entries := [], entryIndex := 0, failure := none, written := [] }

/-- The S3 call parameter bytes, the two characters of "\x7b\x7d". -/
def s3Params : Bytes := [123, 125]

/-- Modelled from the spec: the futures package (external to src) registers
a call's ResponseFuture under the entry index returned by replayOrNew
(§4.B), and on clean stream EOF an await raises Suspension carrying exactly
the still-pending entry indexes (§4.D). The S3 run performs the call, the
await then panics with the call's index as the only pending index, and the
wire then carries the frames written during the run followed by what
invoke's recovery writes. -/
def s3Frames : List OutMessage :=
  match doCall s3Machine "svc" "" "m" s3Params with
  | .ok ((_, entryIndex), mAfter) =>
    mAfter.written ++
      invoke (outputSeen mAfter.entries) false
        (fun _ => .panicked (.suspensionPanic [entryIndex] .eof))
  | .error (p, mAfter) => mAfter.written ++ recoverFrames false p

/-- C7 counterexample: in scenario S3 the suspension message carries entry
index 1, not 2 — the machine's cursor starts at 0 and the Call is the first
tracked entry, so the frames are CallEntry then SuspensionMessage{[1]}. -/
theorem c7_s3_counterexample :
    s3Frames =
      [.callEntry { serviceName := "svc", handlerName := "m",
                    parameter := s3Params, key := "" },
       .suspensionMessage [1]] ∧
    s3Frames ≠
      [.callEntry { serviceName := "svc", handlerName := "m",
                    parameter := s3Params, key := "" },
       .suspensionMessage [2]] := by
  constructor
  · rfl
  · decide

/-- C7 amended: in scenario S3 the SDK writes a CallEntry and then a
SuspensionMessage whose entry-index list is exactly [1] (the Input entry
does not consume a cursor index; the Call is tracked at index 1). -/
theorem c7_s3_suspension_frames :
    s3Frames =
      [.callEntry { serviceName := "svc", handlerName := "m",
                    parameter := s3Params, key := "" },
       .suspensionMessage [1]] := rfl

/-- C8: one Uint64 step computes the spec's xoshiro permutation (result on
the pre-state, then the state update, all modulo 2^64); the seed is the
four little-endian 64-bit words of the SHA-256 digest of the invocation id
(the hash function passed as a parameter, being external code); identical
invocation id bytes therefore yield an identical Uint64 sequence. -/
theorem c8_prng_step_seed_determinism (s : Source) (sha : Bytes → Bytes)
    (id1 id2 : Bytes) (n : Nat) :
    s.Uint64 = specUint64Step s ∧
    seedFromId sha id1 =
      { s0 := leUint64 ((sha id1).take 8)
        s1 := leUint64 (((sha id1).drop 8).take 8)
        s2 := leUint64 (((sha id1).drop 16).take 8)
        s3 := leUint64 (((sha id1).drop 24).take 8) } ∧
    (id1 = id2 → uint64Seq (seedFromId sha id1) n = uint64Seq (seedFromId sha id2) n) :=
  ⟨rfl, rfl, fun h => by rw [h]⟩

/-- A stand-in hash for the C8 witness. -/
def shaStub : Bytes → Bytes := fun _ => List.replicate 32 1

/-- Witness for C8 at a concrete state and invocation id. -/
theorem c8_prng_witness :
    (Source.Uint64 { s0 := 1, s1 := 2, s2 := 3, s3 := 4 } =
      specUint64Step { s0 := 1, s1 := 2, s2 := 3, s3 := 4 }) ∧
    uint64Seq (seedFromId shaStub [0]) 3 = uint64Seq (seedFromId shaStub [0]) 3 :=
  ⟨(c8_prng_step_seed_determinism { s0 := 1, s1 := 2, s2 := 3, s3 := 4 }
      shaStub [0] [0] 3).1,
   (c8_prng_step_seed_determinism { s0 := 1, s1 := 2, s2 := 3, s3 := 4 }
      shaStub [0] [0] 3).2.2 rfl⟩

/-- Helper: forcing the version nibble makes the high nibble of byte 6
equal 0x40. -/
theorem versionMask (x : Nat) : ((x &&& 15) ||| 64) &&& 240 = 64 := by
  obtain ⟨k, hk, hkeq⟩ : ∃ k, k < 16 ∧ x &&& 15 = k :=
    ⟨x &&& 15, Nat.lt_succ_of_le Nat.and_le_right, rfl⟩
  rw [hkeq]
  interval_cases k <;> rfl

/-- Helper: forcing the variant bits makes the top two bits of byte 8
equal 0x80. -/
theorem variantMask (x : Nat) : ((x &&& 63) ||| 128) &&& 192 = 128 := by
  obtain ⟨k, hk, hkeq⟩ : ∃ k, k < 64 ∧ x &&& 63 = k :=
    ⟨x &&& 63, Nat.lt_succ_of_le Nat.and_le_right, rfl⟩
  rw [hkeq]
  interval_cases k <;> rfl

/-- C9: every UUID has byte 6 with high nibble 0x40 and byte 8 with top
bits 0x80; the value is 16 bytes long and, away from positions 6 and 8,
equals the 16 bytes drawn as two little-endian Uint64 values. -/
theorem c9_uuid_version_variant (s : Source) :
    ((Rand.UUID s).1.getD 6 0) &&& 240 = 64 ∧
    ((Rand.UUID s).1.getD 8 0) &&& 192 = 128 ∧
    (Rand.UUID s).1.length = 16 ∧
    (∀ i, i ≠ 6 → i ≠ 8 →
      (Rand.UUID s).1[i]? =
        (leBytes8 s.Uint64.1 ++ leBytes8 s.Uint64.2.Uint64.1)[i]?) := by
  refine ⟨?_, ?_, rfl, ?_⟩
  · have e6 : (Rand.UUID s).1.getD 6 0 =
        (((leBytes8 s.Uint64.1 ++ leBytes8 s.Uint64.2.Uint64.1).getD 6 0) &&& 15) ||| 64 := rfl
    rw [e6]
    exact versionMask _
  · have e8 : (Rand.UUID s).1.getD 8 0 =
        (((leBytes8 s.Uint64.1 ++ leBytes8 s.Uint64.2.Uint64.1).getD 8 0) &&& 63) ||| 128 := rfl
    rw [e8]
    exact variantMask _
  · intro i h6 h8
    obtain ⟨v, w, hvw⟩ : ∃ v w, (Rand.UUID s).1 =
        ((leBytes8 s.Uint64.1 ++ leBytes8 s.Uint64.2.Uint64.1).set 6 v).set 8 w :=
      ⟨_, _, rfl⟩
    rw [hvw, List.getElem?_set_ne (Ne.symm h8), List.getElem?_set_ne (Ne.symm h6)]

/-- Witness for C9 at a concrete source state. -/
theorem c9_uuid_version_variant_witness :
    ((Rand.UUID { s0 := 1, s1 := 2, s2 := 3, s3 := 4 }).1.getD 6 0) &&& 240 = 64 ∧
    ((Rand.UUID { s0 := 1, s1 := 2, s2 := 3, s3 := 4 }).1.getD 8 0) &&& 192 = 128 ∧
    (Rand.UUID { s0 := 1, s1 := 2, s2 := 3, s3 := 4 }).1[0]? =
      (leBytes8 (Source.Uint64 { s0 := 1, s1 := 2, s2 := 3, s3 := 4 }).1 ++
        leBytes8 (Source.Uint64 (Source.Uint64 { s0 := 1, s1 := 2, s2 := 3, s3 := 4 }).2).1)[0]? :=
  ⟨(c9_uuid_version_variant { s0 := 1, s1 := 2, s2 := 3, s3 := 4 }).1,
   (c9_uuid_version_variant { s0 := 1, s1 := 2, s2 := 3, s3 := 4 }).2.1,
   (c9_uuid_version_variant { s0 := 1, s1 := 2, s2 := 3, s3 := 4 }).2.2.2 0
     (by decide) (by decide)⟩

end RestateSDK
